import Mathlib

/- Verification of the mmuser-utils repository (userutil.py and
print_utils.py): a shallow embedding of its configuration loading, argument
parsing and validation, and its Mattermost API action functions, together
with theorems settling the specification's claims.

Modelling conventions:
  - The external mattermostdriver `Driver` is a record of the endpoint
    functions the code calls; lookups return `Option Entity` (None / a dict
    consulted only for its id), mutating endpoints return per-endpoint
    response records holding exactly the fields the code reads.
  - Python truthiness of a `str` is non-emptiness; of an optional value,
    `none` is falsy; of an optional string, `none` and `""` are falsy.
  - `exit(k)` is modelled as the value `some k`, a normal return as `none`.
  - Printing is modelled by returning the list of printed lines; output of
    `debug_print` in userutil.py (silent unless the --debug global is set)
    is not modelled inside the action functions, and is modelled directly
    where a claim is about `debug_print` itself.
  - Python `str.lower()` is modelled by `Char.toLower` on each character
    (the basic-latin fragment, which is what the repository's channel names
    exercise). -/

namespace MMUserUtils

/-- Python truthiness of a string: non-empty strings are truthy. -/
def pyTruthyStr (s : String) : Bool := !s.isEmpty

/-- Python truthiness of an optional string (None or str): None and the
empty string are falsy. -/
def pyTruthyOptStr : Option String → Bool
  | none => false
  | some s => !s.isEmpty

/-- Python truthiness of an optional integer (None or int): None and 0 are
falsy. -/
def pyTruthyOptNat : Option Nat → Bool
  | none => false
  | some n => !(n == 0)

namespace PrintUtils

/-- print_utils.debug_print: the function reads
`globals().get('DEBUG', True)`; `debugGlobal` models the module-level DEBUG
binding (`none` = no such global is defined). The returned list models the
lines printed to stdout. -/
def debug_print (debugGlobal : Option Bool) (msg : String) : List String :=
  let debug_mode := debugGlobal.getD true
  if debug_mode then ["DEBUG: " ++ msg] else []

/-- print_utils.py defines no module-level DEBUG variable. -/
def moduleDEBUG : Option Bool := none

end PrintUtils

namespace Userutil

/-- userutil.py line 14: the module-level debug flag starts as False. -/
def DEBUG : Bool := false

/-- userutil.debug_print: prints only when the module-level DEBUG is True.
The returned list models the lines printed to stdout. -/
def debug_print (debugFlag : Bool) (msg : String) : List String :=
  if debugFlag then ["DEBUG: " ++ msg] else []

end Userutil

/-- userutil.parse_channel_name: all characters are converted to lower case,
and spaces are replaced with dashes. (Python's `replace(' ', '-')` with a
one-character pattern rewrites each matching character.) -/
def parse_channel_name (channelname : String) : String :=
  let lowercase_channelname := String.mk (channelname.data.map Char.toLower)
  let converted_channelname :=
    String.mk (lowercase_channelname.data.map (fun c => if c = ' ' then '-' else c))
  converted_channelname

/-- A Mattermost entity (user / team / channel): an opaque dictionary that
the code consults only for its id field. -/
structure Entity where
  id : String
deriving Repr, DecidableEq

/-- Response shape of revoke_all_user_sessions / update_user_active_status /
remove_user_from_team: the code reads its status field. -/
structure StatusResponse where
  status : String
deriving Repr, DecidableEq

/-- Response of patch_user: the updated user object; the code reads its
nickname field. -/
structure PatchUserResponse where
  nickname : String
deriving Repr, DecidableEq

/-- Response of teams.add_user_to_team: a team-member object; the code reads
its team_id field. -/
structure TeamMemberResponse where
  team_id : String
deriving Repr, DecidableEq

/-- Response of channels.add_user / remove_channel_member: the code calls
response.get("status_code"), which is present only on failure. -/
structure ChannelOpResponse where
  status_code : Option Nat
deriving Repr, DecidableEq

/-- The options dict sent to update_user_active_status. -/
structure ActiveOptions where
  active : Bool
deriving Repr, DecidableEq

/-- The options dict sent to patch_user. -/
structure NicknameOptions where
  nickname : String
deriving Repr, DecidableEq

/-- The options dict sent to teams.add_user_to_team. -/
structure TeamMemberOptions where
  team_id : String
  user_id : String
deriving Repr, DecidableEq

/-- The options dict sent to channels.add_user. -/
structure ChannelMemberOptions where
  user_id : String
deriving Repr, DecidableEq

/-- The external mattermostdriver Driver: one field per endpoint the code
calls, modelling the remote service's behaviour during the run. -/
structure Driver where
  get_user_by_email : String → Option Entity
  get_team_by_name : String → Option Entity
  get_channel_by_name_and_team_name : String → String → Option Entity
  revoke_all_user_sessions : String → StatusResponse
  update_user_active_status : String → ActiveOptions → StatusResponse
  patch_user : String → NicknameOptions → PatchUserResponse
  add_user_to_team : String → TeamMemberOptions → TeamMemberResponse
  remove_user_from_team : String → String → StatusResponse
  add_user : String → ChannelMemberOptions → ChannelOpResponse
  remove_channel_member : String → String → ChannelOpResponse

/-- One API call issued through the Driver. The first three constructors are
read-only lookups; the others mutate server state. -/
inductive ApiCall where
  | get_user_by_email (email : String)
  | get_team_by_name (name : String)
  | get_channel_by_name_and_team_name (team_name channel_name : String)
  | revoke_all_user_sessions (user_id : String)
  | update_user_active_status (user_id : String) (options : ActiveOptions)
  | patch_user (user_id : String) (options : NicknameOptions)
  | add_user_to_team (team_id : String) (options : TeamMemberOptions)
  | remove_user_from_team (team_id user_id : String)
  | add_user (channel_id : String) (options : ChannelMemberOptions)
  | remove_channel_member (channel_id user_id : String)
deriving Repr, DecidableEq

/-- Whether an ApiCall mutates server state (is not a pure lookup). -/
def ApiCall.mutating : ApiCall → Bool
  | .get_user_by_email _ => false
  | .get_team_by_name _ => false
  | .get_channel_by_name_and_team_name _ _ => false
  | _ => true

/-- A line printed by the print helpers: print_info goes to stdout,
print_warn and print_error to stderr. -/
inductive Msg where
  | info (s : String)
  | warn (s : String)
  | error (s : String)
deriving Repr, DecidableEq

/-- Whether a printed line is a warning or an error. -/
def Msg.isWarnOrError : Msg → Bool
  | .warn _ => true
  | .error _ => true
  | .info _ => false

/-- Result of running one action function: its boolean return value, the API
calls it issued in order, and the lines it printed. -/
structure ActionResult where
  ok : Bool
  calls : List ApiCall
  out : List Msg
deriving Repr, DecidableEq

/-- The action fails: it returns False and prints a warning or error. -/
def failsWithWarning (r : ActionResult) : Prop :=
  r.ok = false ∧ r.out.any Msg.isWarnOrError = true

/-- The action fails without issuing any mutating API call: it returns
False, every call it issued was a pure lookup, and it printed a warning or
error. -/
def failsWithoutMutation (r : ActionResult) : Prop :=
  r.ok = false ∧ r.calls.all (fun c => !c.mutating) = true ∧
    r.out.any Msg.isWarnOrError = true

/-- userutil.force_user_logout (lines 224-253). -/
def force_user_logout (mm : Driver) (email : String) : ActionResult :=
  let out0 := [Msg.info ("Logging out user: " ++ email)]
  match mm.get_user_by_email email with
  | none =>
      { ok := false
        calls := [ApiCall.get_user_by_email email]
        out := out0 ++ [Msg.warn ("User '" ++ email ++ "' not found!")] }
  | some user =>
      let user_id := user.id
      let response := mm.revoke_all_user_sessions user_id
      let calls := [ApiCall.get_user_by_email email,
                    ApiCall.revoke_all_user_sessions user_id]
      if ¬ response.status = "OK" then
        { ok := false, calls := calls
          out := out0 ++ [Msg.warn ("Failed to logout user: " ++ email)] }
      else
        { ok := true, calls := calls
          out := out0 ++ [Msg.info ("User '" ++ email ++ "' logged out!")] }

/-- userutil.disable_user (lines 256-292): disables the user, or re-enables
them when revert is True. -/
def disable_user (mm : Driver) (email : String) (revert : Bool := false) :
    ActionResult :=
  let payload : ActiveOptions := { active := revert }
  let out0 :=
    if revert then [Msg.info ("Re-enabling user: " ++ email)]
    else [Msg.info ("Disabling user: " ++ email)]
  match mm.get_user_by_email email with
  | none =>
      { ok := false
        calls := [ApiCall.get_user_by_email email]
        out := out0 ++ [Msg.warn ("User '" ++ email ++ "' not found!")] }
  | some user =>
      let user_id := user.id
      let response := mm.update_user_active_status user_id payload
      let calls := [ApiCall.get_user_by_email email,
                    ApiCall.update_user_active_status user_id payload]
      if ¬ response.status = "OK" then
        { ok := false, calls := calls
          out := out0 ++ [Msg.warn ("Failed to update user: " ++ email)] }
      else
        { ok := true, calls := calls
          out := out0 ++ [Msg.info ("User '" ++ email ++ "' updated successfully!")] }

/-- userutil.new_nickname (lines 295-325): sets the user's nickname and
checks the patched user object's nickname field. -/
def new_nickname (mm : Driver) (email : String) (newnickname : String) :
    ActionResult :=
  let out0 := [Msg.info ("Setting new nickname for user: " ++ email ++
                         " to '" ++ newnickname ++ "'")]
  match mm.get_user_by_email email with
  | none =>
      { ok := false
        calls := [ApiCall.get_user_by_email email]
        out := out0 ++ [Msg.warn ("User '" ++ email ++ "' not found!")] }
  | some user =>
      let user_id := user.id
      let response := mm.patch_user user_id { nickname := newnickname }
      let calls := [ApiCall.get_user_by_email email,
                    ApiCall.patch_user user_id { nickname := newnickname }]
      if ¬ response.nickname = newnickname then
        { ok := false, calls := calls
          out := out0 ++ [Msg.warn ("Failed to set nickname for user: " ++ email)] }
      else
        { ok := true, calls := calls
          out := out0 ++ [Msg.info ("User '" ++ email ++ "' nickname updated to '" ++
                                    newnickname ++ "'!")] }

/-- userutil.remove_nickname (lines 328-357): clears the user's nickname and
checks the patched user object's nickname field. -/
def remove_nickname (mm : Driver) (email : String) : ActionResult :=
  let out0 := [Msg.info ("Clearing nickname for user: " ++ email)]
  match mm.get_user_by_email email with
  | none =>
      { ok := false
        calls := [ApiCall.get_user_by_email email]
        out := out0 ++ [Msg.warn ("User '" ++ email ++ "' not found!")] }
  | some user =>
      let user_id := user.id
      let response := mm.patch_user user_id { nickname := "" }
      let calls := [ApiCall.get_user_by_email email,
                    ApiCall.patch_user user_id { nickname := "" }]
      if ¬ response.nickname = "" then
        { ok := false, calls := calls
          out := out0 ++ [Msg.warn ("Failed to clear nickname for user: " ++ email)] }
      else
        { ok := true, calls := calls
          out := out0 ++ [Msg.info ("User '" ++ email ++ "' nickname cleared!")] }

/-- userutil.add_user_to_team (lines 360-407): looks up the user and the
team, issues the add, and checks truthiness of the response's team_id field
(per the source comment, only a successful response contains one). -/
def add_user_to_team (mm : Driver) (email : String) (teamname : String) :
    ActionResult :=
  let out0 := [Msg.info ("Adding user '" ++ email ++ "' to team '" ++ teamname ++ "'")]
  match mm.get_user_by_email email with
  | none =>
      { ok := false
        calls := [ApiCall.get_user_by_email email]
        out := out0 ++ [Msg.warn ("User '" ++ email ++ "' not found!")] }
  | some user =>
      let user_id := user.id
      match mm.get_team_by_name teamname with
      | none =>
          { ok := false
            calls := [ApiCall.get_user_by_email email,
                      ApiCall.get_team_by_name teamname]
            out := out0 ++ [Msg.warn ("Unable to get ID of team: '" ++ teamname)] }
      | some team =>
          let team_id := team.id
          let payload : TeamMemberOptions := { team_id := team_id, user_id := user_id }
          let response := mm.add_user_to_team team_id payload
          let calls := [ApiCall.get_user_by_email email,
                        ApiCall.get_team_by_name teamname,
                        ApiCall.add_user_to_team team_id payload]
          if !(pyTruthyStr response.team_id) then
            { ok := false, calls := calls
              out := out0 ++ [Msg.warn "Failed to add user to team!"] }
          else
            { ok := true, calls := calls
              out := out0 ++ [Msg.info ("User '" ++ email ++ "' added to team '" ++
                                        teamname ++ "'!")] }

/-- userutil.remove_user_from_team (lines 410-457): looks up the user and
the team, issues the removal (the payload dict built on lines 441-444 is
never passed), and checks truthiness of the response's status field. -/
def remove_user_from_team (mm : Driver) (email : String) (teamname : String) :
    ActionResult :=
  let out0 := [Msg.info ("Removing user '" ++ email ++ "' from team '" ++
                         teamname ++ "'")]
  match mm.get_user_by_email email with
  | none =>
      { ok := false
        calls := [ApiCall.get_user_by_email email]
        out := out0 ++ [Msg.warn ("User '" ++ email ++ "' not found!")] }
  | some user =>
      let user_id := user.id
      match mm.get_team_by_name teamname with
      | none =>
          { ok := false
            calls := [ApiCall.get_user_by_email email,
                      ApiCall.get_team_by_name teamname]
            out := out0 ++ [Msg.warn ("Unable to get ID of team: '" ++ teamname)] }
      | some team =>
          let team_id := team.id
          let _payload : TeamMemberOptions := { team_id := team_id, user_id := user_id }
          let response := mm.remove_user_from_team team_id user_id
          let calls := [ApiCall.get_user_by_email email,
                        ApiCall.get_team_by_name teamname,
                        ApiCall.remove_user_from_team team_id user_id]
          if !(pyTruthyStr response.status) then
            { ok := false, calls := calls
              out := out0 ++ [Msg.warn "Failed to remove user from team!"] }
          else
            { ok := true, calls := calls
              out := out0 ++ [Msg.info ("User '" ++ email ++ "' removed from team '" ++
                                        teamname ++ "'!")] }

/-- userutil.add_user_to_channel (lines 476-515): looks up the user, then
the channel by team name and the normalized channel name, issues the add,
and fails when the response carries a status_code entry. -/
def add_user_to_channel (mm : Driver) (email : String) (channelname : String)
    (teamname : String) : ActionResult :=
  let out0 := [Msg.info ("Adding user '" ++ email ++ "' to channel '" ++
                         channelname ++ "' in team '" ++ teamname)]
  match mm.get_user_by_email email with
  | none =>
      { ok := false
        calls := [ApiCall.get_user_by_email email]
        out := out0 ++ [Msg.warn ("User '" ++ email ++ "' not found!")] }
  | some user =>
      let user_id := user.id
      match mm.get_channel_by_name_and_team_name teamname (parse_channel_name channelname) with
      | none =>
          { ok := false
            calls := [ApiCall.get_user_by_email email,
                      ApiCall.get_channel_by_name_and_team_name teamname
                        (parse_channel_name channelname)]
            out := out0 ++ [Msg.warn "Unable to retrieve channel!"] }
      | some channel =>
          let channel_id := channel.id
          let payload : ChannelMemberOptions := { user_id := user_id }
          let response := mm.add_user channel_id payload
          let calls := [ApiCall.get_user_by_email email,
                        ApiCall.get_channel_by_name_and_team_name teamname
                          (parse_channel_name channelname),
                        ApiCall.add_user channel_id payload]
          if pyTruthyOptNat response.status_code then
            { ok := false, calls := calls
              out := out0 ++ [Msg.error ("Failed to add user " ++ email ++
                                         " to channel: " ++ channelname)] }
          else
            { ok := true, calls := calls, out := out0 }

/-- userutil.remove_user_from_channel (lines 518-555): looks up the user,
then the channel by team name and the normalized channel name, issues the
removal, and fails when the response carries a status_code entry. -/
def remove_user_from_channel (mm : Driver) (email : String)
    (channelname : String) (teamname : String) : ActionResult :=
  let out0 := [Msg.info ("Removing user '" ++ email ++ "' from team '" ++ teamname ++ "'")]
  match mm.get_user_by_email email with
  | none =>
      { ok := false
        calls := [ApiCall.get_user_by_email email]
        out := out0 ++ [Msg.warn ("User '" ++ email ++ "' not found!")] }
  | some user =>
      let user_id := user.id
      match mm.get_channel_by_name_and_team_name teamname (parse_channel_name channelname) with
      | none =>
          { ok := false
            calls := [ApiCall.get_user_by_email email,
                      ApiCall.get_channel_by_name_and_team_name teamname
                        (parse_channel_name channelname)]
            out := out0 ++ [Msg.warn "Unable to retrieve channel!"] }
      | some channel =>
          let channel_id := channel.id
          let response := mm.remove_channel_member channel_id user_id
          let calls := [ApiCall.get_user_by_email email,
                        ApiCall.get_channel_by_name_and_team_name teamname
                          (parse_channel_name channelname),
                        ApiCall.remove_channel_member channel_id user_id]
          if pyTruthyOptNat response.status_code then
            { ok := false, calls := calls
              out := out0 ++ [Msg.error ("Failed to remove user " ++ email ++
                                         " from channel: " ++ channelname)] }
          else
            { ok := true, calls := calls, out := out0 }

/-- userutil.py line 10. -/
def DEFAULT_CONFIG_FILE : String := "config.ini"

/-- userutil.py line 11. -/
def DEFAULT_PORT : String := "443"

/-- userutil.py line 12. -/
def DEFAULT_SCHEME : String := "https"

/-- An open token-file handle, as returned by is_valid_file (main reads the
token from its first line). A handle is always truthy in Python. -/
structure TokenFile where
  token : String
deriving Repr, DecidableEq

/-- The argparse.Namespace produced by the parser that setup_parser builds.
String options that may be absent (default None) are Option String;
store_true flags are Bool; port, scheme and config always carry a string
because their defaults fall back to non-None values; useremail always
carries a string because the option is declared required=True. -/
structure Args where
  config : String
  debug : Bool
  siteurl : Option String
  port : String
  scheme : String
  tokenfile : Option TokenFile
  useremail : String
  forcelogout : Bool
  disableuser : Bool
  enableuser : Bool
  newnickname : Option String
  removenickname : Bool
  teamadd : Option String
  teamremove : Option String
  channeladd : Option String
  channelremove : Option String
  team : Option String
deriving Repr, DecidableEq

/-- userutil.validate_args (lines 194-221): `some k` models `exit(k)`, and
`none` a normal return. The or-chain on lines 200-209 lists newnickname
twice, exactly as the source does; Python's nested
`if tasks: if not email: exit(2)` falls through to the next check when the
inner test fails, which the `&&` encodes. -/
def validate_args (args : Args) : Option Nat :=
  if !(pyTruthyOptStr args.siteurl) || !(pyTruthyStr args.port)
      || !(pyTruthyStr args.scheme) || !args.tokenfile.isSome then
    some 1
  else if (args.forcelogout
      || args.disableuser
      || pyTruthyOptStr args.newnickname
      || args.enableuser
      || pyTruthyOptStr args.newnickname
      || args.removenickname
      || pyTruthyOptStr args.teamadd
      || pyTruthyOptStr args.teamremove
      || pyTruthyOptStr args.channeladd
      || pyTruthyOptStr args.channelremove)
      && !(pyTruthyStr args.useremail) then
    some 2
  else if (pyTruthyOptStr args.channeladd || pyTruthyOptStr args.channelremove)
      && !(pyTruthyOptStr args.team) then
    some 3
  else
    none

/-- All four site connection arguments are present and truthy (the first
check of validate_args passes). -/
def site_args_ok (args : Args) : Bool :=
  pyTruthyOptStr args.siteurl && pyTruthyStr args.port
    && pyTruthyStr args.scheme && args.tokenfile.isSome

/-- Some task flag is set (the or-chain of validate_args, without the
duplicate newnickname entry). -/
def task_flag_set (args : Args) : Bool :=
  args.forcelogout || args.disableuser || pyTruthyOptStr args.newnickname
    || args.enableuser || args.removenickname || pyTruthyOptStr args.teamadd
    || pyTruthyOptStr args.teamremove || pyTruthyOptStr args.channeladd
    || pyTruthyOptStr args.channelremove

/-- One of the channel operations is requested. -/
def channel_op_set (args : Args) : Bool :=
  pyTruthyOptStr args.channeladd || pyTruthyOptStr args.channelremove

/-- The configparser view of an INI file: sections mapped to their entry
dicts, modelling the external configparser library after config.read. -/
abbrev IniFile := List (String × List (String × String))

/-- Python dict.get on an association-list dict (first binding wins). -/
def dictGet (d : List (String × String)) (k : String) : Option String :=
  match d.find? (fun kv => kv.fst == k) with
  | some kv => some kv.snd
  | none => none

/-- `config['Site']` on the parsed INI file; `none` models the KeyError when
the file has no Site section. -/
def iniSection (config : IniFile) (name : String) : Option (List (String × String)) :=
  match config.find? (fun s => s.fst == name) with
  | some s => some s.snd
  | none => none

/-- userutil.load_site_config (lines 78-88): returns the dictionary of the
INI file's entries in the 'Site' section. -/
def load_site_config (config : IniFile) : Option (List (String × String)) :=
  iniSection config "Site"

/-- The options supplied on a command line (none / false = not supplied),
the input to parsing with the parser that setup_parser builds. tokenfile
carries the supplied path (its is_valid_file conversion happens during
parsing). -/
structure CmdLine where
  config : Option String := none
  debug : Bool := false
  siteurl : Option String := none
  port : Option String := none
  scheme : Option String := none
  tokenfile : Option String := none
  useremail : Option String := none
  forcelogout : Bool := false
  disableuser : Bool := false
  enableuser : Bool := false
  newnickname : Option String := none
  removenickname : Bool := false
  teamadd : Option String := none
  teamremove : Option String := none
  channeladd : Option String := none
  channelremove : Option String := none
  team : Option String := none
deriving Repr, DecidableEq

/-- argparse's choices check for --scheme (setup_parser lines 113-119):
only a supplied value is checked. -/
def schemeOk : Option String → Bool
  | none => true
  | some s => s == "http" || s == "https"

/-- The namespace assembled from the defaults dict, the command line and
the converted token file (a supplied option overrides its default, per
argparse; setup_parser lines 91-191). -/
def mkNamespace (defaults : List (String × String)) (cmd : CmdLine)
    (email : String) (tok : Option TokenFile) : Args :=
  { config := cmd.config.getD DEFAULT_CONFIG_FILE
    debug := cmd.debug
    siteurl := cmd.siteurl <|> dictGet defaults "siteurl"
    port := cmd.port.getD ((dictGet defaults "port").getD DEFAULT_PORT)
    scheme := cmd.scheme.getD ((dictGet defaults "scheme").getD DEFAULT_SCHEME)
    tokenfile := tok
    useremail := email
    forcelogout := cmd.forcelogout
    disableuser := cmd.disableuser
    enableuser := cmd.enableuser
    newnickname := cmd.newnickname
    removenickname := cmd.removenickname
    teamadd := cmd.teamadd
    teamremove := cmd.teamremove
    channeladd := cmd.channeladd
    channelremove := cmd.channelremove
    team := cmd.team }

/-- Parsing a command line with the parser that setup_parser(defaults)
builds, modelling argparse's documented behaviour: parsing fails (argparse
exits with a usage error) when the required --useremail is not supplied or
a supplied --scheme is outside its choices; the tokenfile path (supplied,
or else the defaults dict's tokenfile entry) goes through is_valid_file,
which aborts parsing when the file does not exist (`fs path = none`) and
otherwise yields the open handle; a missing tokenfile default (None) is
passed through unconverted. -/
def parse_args (defaults : List (String × String)) (fs : String → Option TokenFile)
    (cmd : CmdLine) : Option Args :=
  match cmd.useremail with
  | none => none
  | some email =>
    if !(schemeOk cmd.scheme) then none
    else
      match cmd.tokenfile <|> dictGet defaults "tokenfile" with
      | none => some (mkNamespace defaults cmd email none)
      | some path =>
        match fs path with
        | none => none
        | some handle => some (mkNamespace defaults cmd email (some handle))

/-- The nine guarded actions of main, in source order (lines 591-625). -/
inductive ActionName where
  | forcelogout
  | disableuser
  | enableuser
  | newnickname
  | removenickname
  | teamadd
  | teamremove
  | channeladd
  | channelremove
deriving Repr, DecidableEq

/-- The fixed order in which main tests its action guards. -/
def actionOrder : List ActionName :=
  [ActionName.forcelogout, ActionName.disableuser, ActionName.enableuser,
   ActionName.newnickname, ActionName.removenickname, ActionName.teamadd,
   ActionName.teamremove, ActionName.channeladd, ActionName.channelremove]

/-- Whether main's if-guard for an action fires (Python truthiness of the
corresponding argument). -/
def requested (args : Args) : ActionName → Bool
  | .forcelogout => args.forcelogout
  | .disableuser => args.disableuser
  | .enableuser => args.enableuser
  | .newnickname => pyTruthyOptStr args.newnickname
  | .removenickname => args.removenickname
  | .teamadd => pyTruthyOptStr args.teamadd
  | .teamremove => pyTruthyOptStr args.teamremove
  | .channeladd => pyTruthyOptStr args.channeladd
  | .channelremove => pyTruthyOptStr args.channelremove

/-- The straight-line sequence of guarded action calls in main (lines
591-625), each attempted action paired with its result. Option-typed
arguments whose guard guarantees a value are unwrapped with getD "" (their
guard is exactly truthiness of that value); the extra print_warn main emits
when an action returns False is not part of the action's own result. -/
def main_actions (mm : Driver) (args : Args) : List (ActionName × ActionResult) :=
  (if args.forcelogout then
      [(ActionName.forcelogout, force_user_logout mm args.useremail)]
    else [])
  ++ (if args.disableuser then
      [(ActionName.disableuser, disable_user mm args.useremail)]
    else [])
  ++ (if args.enableuser then
      [(ActionName.enableuser, disable_user mm args.useremail true)]
    else [])
  ++ (if pyTruthyOptStr args.newnickname then
      [(ActionName.newnickname,
        new_nickname mm args.useremail (args.newnickname.getD ""))]
    else [])
  ++ (if args.removenickname then
      [(ActionName.removenickname, remove_nickname mm args.useremail)]
    else [])
  ++ (if pyTruthyOptStr args.teamadd then
      [(ActionName.teamadd,
        add_user_to_team mm args.useremail (args.teamadd.getD ""))]
    else [])
  ++ (if pyTruthyOptStr args.teamremove then
      [(ActionName.teamremove,
        remove_user_from_team mm args.useremail (args.teamremove.getD ""))]
    else [])
  ++ (if pyTruthyOptStr args.channeladd then
      [(ActionName.channeladd,
        add_user_to_channel mm args.useremail (args.channeladd.getD "")
          (args.team.getD ""))]
    else [])
  ++ (if pyTruthyOptStr args.channelremove then
      [(ActionName.channelremove,
        remove_user_from_channel mm args.useremail (args.channelremove.getD "")
          (args.team.getD ""))]
    else [])

/-- The action's boolean result is decided by cond, and a failing action
prints a warning or error. -/
def succeedsIff (r : ActionResult) (cond : Prop) : Prop :=
  (r.ok = true ↔ cond) ∧ (r.ok = false → r.out.any Msg.isWarnOrError = true)

/-! Concrete sample data, used to evaluate the embedded functions on
closed inputs. -/

/-- A sample user entity. -/
def demoUser : Entity := { id := "U1" }

/-- A sample team entity. -/
def demoTeam : Entity := { id := "T1" }

/-- A sample channel entity. -/
def demoChannel : Entity := { id := "C1" }

/-- A driver whose lookups all succeed and whose mutating endpoints all
report success. -/
def mmOk : Driver :=
  { get_user_by_email := fun _ => some demoUser
    get_team_by_name := fun _ => some demoTeam
    get_channel_by_name_and_team_name := fun _ _ => some demoChannel
    revoke_all_user_sessions := fun _ => { status := "OK" }
    update_user_active_status := fun _ _ => { status := "OK" }
    patch_user := fun _ opts => { nickname := opts.nickname }
    add_user_to_team := fun team_id _ => { team_id := team_id }
    remove_user_from_team := fun _ _ => { status := "OK" }
    add_user := fun _ _ => { status_code := none }
    remove_channel_member := fun _ _ => { status_code := none } }

/-- A driver on which every entity lookup comes back empty. -/
def mmNoUser : Driver :=
  { mmOk with
    get_user_by_email := fun _ => none
    get_team_by_name := fun _ => none
    get_channel_by_name_and_team_name := fun _ _ => none }

/-- A driver that finds the user but no team and no channel. -/
def mmNoTeam : Driver :=
  { mmOk with
    get_team_by_name := fun _ => none
    get_channel_by_name_and_team_name := fun _ _ => none }

/-- A driver whose lookups succeed but whose mutating endpoints all report
failure. -/
def mmFail : Driver :=
  { get_user_by_email := fun _ => some demoUser
    get_team_by_name := fun _ => some demoTeam
    get_channel_by_name_and_team_name := fun _ _ => some demoChannel
    revoke_all_user_sessions := fun _ => { status := "FAIL" }
    update_user_active_status := fun _ _ => { status := "FAIL" }
    patch_user := fun _ _ => { nickname := "unchanged" }
    add_user_to_team := fun _ _ => { team_id := "" }
    remove_user_from_team := fun _ _ => { status := "" }
    add_user := fun _ _ => { status_code := some 403 }
    remove_channel_member := fun _ _ => { status_code := some 403 } }

/-- Like mmOk, except that patch_user leaves the nickname unchanged; its
responses differ from mmOk's only in the nickname field. -/
def mmNickBad : Driver :=
  { mmOk with patch_user := fun _ _ => { nickname := "eve" } }

/-- A parsed namespace with the site arguments missing (siteurl None), a
task flag set, and an empty user email. -/
def argsMissingSite : Args :=
  { config := "config.ini"
    debug := false
    siteurl := none
    port := "443"
    scheme := "https"
    tokenfile := some { token := "tok" }
    useremail := ""
    forcelogout := true
    disableuser := false
    enableuser := false
    newnickname := none
    removenickname := false
    teamadd := none
    teamremove := none
    channeladd := none
    channelremove := none
    team := none }

/-- A filesystem on which every path opens to the same token file. -/
def fsDemo : String → Option TokenFile := fun _ => some { token := "tok" }

/-- A sample INI file with a Site section. -/
def iniDemo : IniFile :=
  [("Site", [("siteurl", "mm.example.com"), ("port", "8065"),
             ("scheme", "http"), ("tokenfile", "tok.txt")])]

/-- A command line that supplies only the required --useremail. -/
def cmdDemo : CmdLine := { useremail := some "u@x.y" }

/-- The namespace parse_args produces from iniDemo's Site section and
cmdDemo. -/
def nsDemo : Args :=
  { config := "config.ini"
    debug := false
    siteurl := some "mm.example.com"
    port := "8065"
    scheme := "http"
    tokenfile := some { token := "tok" }
    useremail := "u@x.y"
    forcelogout := false
    disableuser := false
    enableuser := false
    newnickname := none
    removenickname := false
    teamadd := none
    teamremove := none
    channeladd := none
    channelremove := none
    team := none }

/-- A command line that passes an explicitly empty --useremail together
with a site URL, a token file and a task flag. -/
def cmdEmptyEmail : CmdLine :=
  { useremail := some ""
    siteurl := some "mm.example.com"
    tokenfile := some "tok.txt"
    forcelogout := true }

/-- The namespace parse_args produces from an empty defaults dict and
cmdEmptyEmail. -/
def nsEmptyEmail : Args :=
  { config := "config.ini"
    debug := false
    siteurl := some "mm.example.com"
    port := "443"
    scheme := "https"
    tokenfile := some { token := "tok" }
    useremail := ""
    forcelogout := true
    disableuser := false
    enableuser := false
    newnickname := none
    removenickname := false
    teamadd := none
    teamremove := none
    channeladd := none
    channelremove := none
    team := none }

/-! Helper lemmas. -/

theorem toNat_ofNat_valid (n : Nat) (h : n.isValidChar) : (Char.ofNat n).toNat = n := by
  rw [Char.ofNat, dif_pos h]
  rfl

theorem toLower_toLower (c : Char) : c.toLower.toLower = c.toLower := by
  unfold Char.toLower
  by_cases h : c.toNat ≥ 65 ∧ c.toNat ≤ 90
  · rw [if_pos h]
    have hv : (c.toNat + 32).isValidChar := by
      constructor
      omega
    have ht : (Char.ofNat (c.toNat + 32)).toNat = c.toNat + 32 := toNat_ofNat_valid _ hv
    rw [if_neg]
    rw [ht]
    omega
  · rw [if_neg h, if_neg h]

theorem isUpper_iff (c : Char) : c.isUpper = true ↔ 65 ≤ c.toNat ∧ c.toNat ≤ 90 := by
  simp [Char.isUpper, UInt32.le_def, BitVec.le_def, Char.toNat, UInt32.toNat]

theorem toLower_isUpper (c : Char) : c.toLower.isUpper = false := by
  rw [Char.toLower]
  by_cases h : c.toNat ≥ 65 ∧ c.toNat ≤ 90
  · rw [if_pos h]
    have hv : (c.toNat + 32).isValidChar := by
      constructor
      omega
    have ht := toNat_ofNat_valid _ hv
    rw [Bool.eq_false_iff]
    intro hu
    rw [isUpper_iff, ht] at hu
    omega
  · rw [if_neg h]
    rw [Bool.eq_false_iff]
    intro hu
    rw [isUpper_iff] at hu
    exact h hu

theorem dash_step_idem (c : Char) :
    (if Char.toLower (if Char.toLower c = ' ' then '-' else Char.toLower c) = ' '
     then '-'
     else Char.toLower (if Char.toLower c = ' ' then '-' else Char.toLower c))
    = (if Char.toLower c = ' ' then '-' else Char.toLower c) := by
  by_cases h : Char.toLower c = ' '
  · rw [if_pos h]
    decide
  · rw [if_neg h, toLower_toLower, if_neg h]

theorem force_user_logout_user_missing (mm : Driver) (email : String)
    (h : mm.get_user_by_email email = none) :
    force_user_logout mm email =
      { ok := false
        calls := [ApiCall.get_user_by_email email]
        out := [Msg.info ("Logging out user: " ++ email),
                Msg.warn ("User '" ++ email ++ "' not found!")] } := by
  simp [force_user_logout, h]

theorem force_user_logout_found (mm : Driver) (email : String) (u : Entity)
    (h : mm.get_user_by_email email = some u) :
    force_user_logout mm email =
      if (mm.revoke_all_user_sessions u.id).status = "OK" then
        { ok := true
          calls := [ApiCall.get_user_by_email email,
                    ApiCall.revoke_all_user_sessions u.id]
          out := [Msg.info ("Logging out user: " ++ email),
                  Msg.info ("User '" ++ email ++ "' logged out!")] }
      else
        { ok := false
          calls := [ApiCall.get_user_by_email email,
                    ApiCall.revoke_all_user_sessions u.id]
          out := [Msg.info ("Logging out user: " ++ email),
                  Msg.warn ("Failed to logout user: " ++ email)] } := by
  by_cases hs : (mm.revoke_all_user_sessions u.id).status = "OK" <;>
    simp [force_user_logout, h, hs]

theorem disable_user_user_missing (mm : Driver) (email : String) (revert : Bool)
    (h : mm.get_user_by_email email = none) :
    disable_user mm email revert =
      { ok := false
        calls := [ApiCall.get_user_by_email email]
        out := (if revert then [Msg.info ("Re-enabling user: " ++ email)]
                else [Msg.info ("Disabling user: " ++ email)]) ++
               [Msg.warn ("User '" ++ email ++ "' not found!")] } := by
  cases revert <;> simp [disable_user, h]

theorem disable_user_found (mm : Driver) (email : String) (revert : Bool)
    (u : Entity) (h : mm.get_user_by_email email = some u) :
    disable_user mm email revert =
      if (mm.update_user_active_status u.id { active := revert }).status = "OK" then
        { ok := true
          calls := [ApiCall.get_user_by_email email,
                    ApiCall.update_user_active_status u.id { active := revert }]
          out := (if revert then [Msg.info ("Re-enabling user: " ++ email)]
                  else [Msg.info ("Disabling user: " ++ email)]) ++
                 [Msg.info ("User '" ++ email ++ "' updated successfully!")] }
      else
        { ok := false
          calls := [ApiCall.get_user_by_email email,
                    ApiCall.update_user_active_status u.id { active := revert }]
          out := (if revert then [Msg.info ("Re-enabling user: " ++ email)]
                  else [Msg.info ("Disabling user: " ++ email)]) ++
                 [Msg.warn ("Failed to update user: " ++ email)] } := by
  by_cases hs : (mm.update_user_active_status u.id { active := revert }).status = "OK" <;>
    cases revert <;> simp_all [disable_user]

theorem new_nickname_user_missing (mm : Driver) (email nick : String)
    (h : mm.get_user_by_email email = none) :
    new_nickname mm email nick =
      { ok := false
        calls := [ApiCall.get_user_by_email email]
        out := [Msg.info ("Setting new nickname for user: " ++ email ++
                          " to '" ++ nick ++ "'"),
                Msg.warn ("User '" ++ email ++ "' not found!")] } := by
  simp [new_nickname, h]

theorem new_nickname_found (mm : Driver) (email nick : String) (u : Entity)
    (h : mm.get_user_by_email email = some u) :
    new_nickname mm email nick =
      if (mm.patch_user u.id { nickname := nick }).nickname = nick then
        { ok := true
          calls := [ApiCall.get_user_by_email email,
                    ApiCall.patch_user u.id { nickname := nick }]
          out := [Msg.info ("Setting new nickname for user: " ++ email ++
                            " to '" ++ nick ++ "'"),
                  Msg.info ("User '" ++ email ++ "' nickname updated to '" ++
                            nick ++ "'!")] }
      else
        { ok := false
          calls := [ApiCall.get_user_by_email email,
                    ApiCall.patch_user u.id { nickname := nick }]
          out := [Msg.info ("Setting new nickname for user: " ++ email ++
                            " to '" ++ nick ++ "'"),
                  Msg.warn ("Failed to set nickname for user: " ++ email)] } := by
  by_cases hs : (mm.patch_user u.id { nickname := nick }).nickname = nick <;>
    simp [new_nickname, h, hs]

theorem remove_nickname_user_missing (mm : Driver) (email : String)
    (h : mm.get_user_by_email email = none) :
    remove_nickname mm email =
      { ok := false
        calls := [ApiCall.get_user_by_email email]
        out := [Msg.info ("Clearing nickname for user: " ++ email),
                Msg.warn ("User '" ++ email ++ "' not found!")] } := by
  simp [remove_nickname, h]

theorem remove_nickname_found (mm : Driver) (email : String) (u : Entity)
    (h : mm.get_user_by_email email = some u) :
    remove_nickname mm email =
      if (mm.patch_user u.id { nickname := "" }).nickname = "" then
        { ok := true
          calls := [ApiCall.get_user_by_email email,
                    ApiCall.patch_user u.id { nickname := "" }]
          out := [Msg.info ("Clearing nickname for user: " ++ email),
                  Msg.info ("User '" ++ email ++ "' nickname cleared!")] }
      else
        { ok := false
          calls := [ApiCall.get_user_by_email email,
                    ApiCall.patch_user u.id { nickname := "" }]
          out := [Msg.info ("Clearing nickname for user: " ++ email),
                  Msg.warn ("Failed to clear nickname for user: " ++ email)] } := by
  by_cases hs : (mm.patch_user u.id { nickname := "" }).nickname = "" <;>
    simp [remove_nickname, h, hs]

theorem add_user_to_team_user_missing (mm : Driver) (email teamname : String)
    (h : mm.get_user_by_email email = none) :
    add_user_to_team mm email teamname =
      { ok := false
        calls := [ApiCall.get_user_by_email email]
        out := [Msg.info ("Adding user '" ++ email ++ "' to team '" ++ teamname ++ "'"),
                Msg.warn ("User '" ++ email ++ "' not found!")] } := by
  simp [add_user_to_team, h]

theorem add_user_to_team_team_missing (mm : Driver) (email teamname : String)
    (u : Entity) (hu : mm.get_user_by_email email = some u)
    (ht : mm.get_team_by_name teamname = none) :
    add_user_to_team mm email teamname =
      { ok := false
        calls := [ApiCall.get_user_by_email email,
                  ApiCall.get_team_by_name teamname]
        out := [Msg.info ("Adding user '" ++ email ++ "' to team '" ++ teamname ++ "'"),
                Msg.warn ("Unable to get ID of team: '" ++ teamname)] } := by
  simp [add_user_to_team, hu, ht]

theorem add_user_to_team_found (mm : Driver) (email teamname : String)
    (u t : Entity) (hu : mm.get_user_by_email email = some u)
    (ht : mm.get_team_by_name teamname = some t) :
    add_user_to_team mm email teamname =
      if pyTruthyStr (mm.add_user_to_team t.id
          { team_id := t.id, user_id := u.id }).team_id then
        { ok := true
          calls := [ApiCall.get_user_by_email email,
                    ApiCall.get_team_by_name teamname,
                    ApiCall.add_user_to_team t.id { team_id := t.id, user_id := u.id }]
          out := [Msg.info ("Adding user '" ++ email ++ "' to team '" ++ teamname ++ "'"),
                  Msg.info ("User '" ++ email ++ "' added to team '" ++ teamname ++ "'!")] }
      else
        { ok := false
          calls := [ApiCall.get_user_by_email email,
                    ApiCall.get_team_by_name teamname,
                    ApiCall.add_user_to_team t.id { team_id := t.id, user_id := u.id }]
          out := [Msg.info ("Adding user '" ++ email ++ "' to team '" ++ teamname ++ "'"),
                  Msg.warn "Failed to add user to team!"] } := by
  by_cases hs : pyTruthyStr (mm.add_user_to_team t.id
      { team_id := t.id, user_id := u.id }).team_id <;>
    simp [add_user_to_team, hu, ht, hs]

theorem remove_user_from_team_user_missing (mm : Driver) (email teamname : String)
    (h : mm.get_user_by_email email = none) :
    remove_user_from_team mm email teamname =
      { ok := false
        calls := [ApiCall.get_user_by_email email]
        out := [Msg.info ("Removing user '" ++ email ++ "' from team '" ++ teamname ++ "'"),
                Msg.warn ("User '" ++ email ++ "' not found!")] } := by
  simp [remove_user_from_team, h]

theorem remove_user_from_team_team_missing (mm : Driver) (email teamname : String)
    (u : Entity) (hu : mm.get_user_by_email email = some u)
    (ht : mm.get_team_by_name teamname = none) :
    remove_user_from_team mm email teamname =
      { ok := false
        calls := [ApiCall.get_user_by_email email,
                  ApiCall.get_team_by_name teamname]
        out := [Msg.info ("Removing user '" ++ email ++ "' from team '" ++ teamname ++ "'"),
                Msg.warn ("Unable to get ID of team: '" ++ teamname)] } := by
  simp [remove_user_from_team, hu, ht]

theorem remove_user_from_team_found (mm : Driver) (email teamname : String)
    (u t : Entity) (hu : mm.get_user_by_email email = some u)
    (ht : mm.get_team_by_name teamname = some t) :
    remove_user_from_team mm email teamname =
      if pyTruthyStr (mm.remove_user_from_team t.id u.id).status then
        { ok := true
          calls := [ApiCall.get_user_by_email email,
                    ApiCall.get_team_by_name teamname,
                    ApiCall.remove_user_from_team t.id u.id]
          out := [Msg.info ("Removing user '" ++ email ++ "' from team '" ++ teamname ++ "'"),
                  Msg.info ("User '" ++ email ++ "' removed from team '" ++ teamname ++ "'!")] }
      else
        { ok := false
          calls := [ApiCall.get_user_by_email email,
                    ApiCall.get_team_by_name teamname,
                    ApiCall.remove_user_from_team t.id u.id]
          out := [Msg.info ("Removing user '" ++ email ++ "' from team '" ++ teamname ++ "'"),
                  Msg.warn "Failed to remove user from team!"] } := by
  by_cases hs : pyTruthyStr (mm.remove_user_from_team t.id u.id).status <;>
    simp [remove_user_from_team, hu, ht, hs]

theorem add_user_to_channel_user_missing (mm : Driver)
    (email channelname teamname : String)
    (h : mm.get_user_by_email email = none) :
    add_user_to_channel mm email channelname teamname =
      { ok := false
        calls := [ApiCall.get_user_by_email email]
        out := [Msg.info ("Adding user '" ++ email ++ "' to channel '" ++
                          channelname ++ "' in team '" ++ teamname),
                Msg.warn ("User '" ++ email ++ "' not found!")] } := by
  simp [add_user_to_channel, h]

theorem add_user_to_channel_channel_missing (mm : Driver)
    (email channelname teamname : String) (u : Entity)
    (hu : mm.get_user_by_email email = some u)
    (hc : mm.get_channel_by_name_and_team_name teamname
            (parse_channel_name channelname) = none) :
    add_user_to_channel mm email channelname teamname =
      { ok := false
        calls := [ApiCall.get_user_by_email email,
                  ApiCall.get_channel_by_name_and_team_name teamname
                    (parse_channel_name channelname)]
        out := [Msg.info ("Adding user '" ++ email ++ "' to channel '" ++
                          channelname ++ "' in team '" ++ teamname),
                Msg.warn "Unable to retrieve channel!"] } := by
  simp [add_user_to_channel, hu, hc]

theorem add_user_to_channel_found (mm : Driver)
    (email channelname teamname : String) (u c : Entity)
    (hu : mm.get_user_by_email email = some u)
    (hc : mm.get_channel_by_name_and_team_name teamname
            (parse_channel_name channelname) = some c) :
    add_user_to_channel mm email channelname teamname =
      if pyTruthyOptNat (mm.add_user c.id { user_id := u.id }).status_code then
        { ok := false
          calls := [ApiCall.get_user_by_email email,
                    ApiCall.get_channel_by_name_and_team_name teamname
                      (parse_channel_name channelname),
                    ApiCall.add_user c.id { user_id := u.id }]
          out := [Msg.info ("Adding user '" ++ email ++ "' to channel '" ++
                            channelname ++ "' in team '" ++ teamname),
                  Msg.error ("Failed to add user " ++ email ++ " to channel: " ++
                             channelname)] }
      else
        { ok := true
          calls := [ApiCall.get_user_by_email email,
                    ApiCall.get_channel_by_name_and_team_name teamname
                      (parse_channel_name channelname),
                    ApiCall.add_user c.id { user_id := u.id }]
          out := [Msg.info ("Adding user '" ++ email ++ "' to channel '" ++
                            channelname ++ "' in team '" ++ teamname)] } := by
  by_cases hs : pyTruthyOptNat (mm.add_user c.id { user_id := u.id }).status_code <;>
    simp [add_user_to_channel, hu, hc, hs]

theorem remove_user_from_channel_user_missing (mm : Driver)
    (email channelname teamname : String)
    (h : mm.get_user_by_email email = none) :
    remove_user_from_channel mm email channelname teamname =
      { ok := false
        calls := [ApiCall.get_user_by_email email]
        out := [Msg.info ("Removing user '" ++ email ++ "' from team '" ++ teamname ++ "'"),
                Msg.warn ("User '" ++ email ++ "' not found!")] } := by
  simp [remove_user_from_channel, h]

theorem remove_user_from_channel_channel_missing (mm : Driver)
    (email channelname teamname : String) (u : Entity)
    (hu : mm.get_user_by_email email = some u)
    (hc : mm.get_channel_by_name_and_team_name teamname
            (parse_channel_name channelname) = none) :
    remove_user_from_channel mm email channelname teamname =
      { ok := false
        calls := [ApiCall.get_user_by_email email,
                  ApiCall.get_channel_by_name_and_team_name teamname
                    (parse_channel_name channelname)]
        out := [Msg.info ("Removing user '" ++ email ++ "' from team '" ++ teamname ++ "'"),
                Msg.warn "Unable to retrieve channel!"] } := by
  simp [remove_user_from_channel, hu, hc]

theorem remove_user_from_channel_found (mm : Driver)
    (email channelname teamname : String) (u c : Entity)
    (hu : mm.get_user_by_email email = some u)
    (hc : mm.get_channel_by_name_and_team_name teamname
            (parse_channel_name channelname) = some c) :
    remove_user_from_channel mm email channelname teamname =
      if pyTruthyOptNat (mm.remove_channel_member c.id u.id).status_code then
        { ok := false
          calls := [ApiCall.get_user_by_email email,
                    ApiCall.get_channel_by_name_and_team_name teamname
                      (parse_channel_name channelname),
                    ApiCall.remove_channel_member c.id u.id]
          out := [Msg.info ("Removing user '" ++ email ++ "' from team '" ++ teamname ++ "'"),
                  Msg.error ("Failed to remove user " ++ email ++ " from channel: " ++
                             channelname)] }
      else
        { ok := true
          calls := [ApiCall.get_user_by_email email,
                    ApiCall.get_channel_by_name_and_team_name teamname
                      (parse_channel_name channelname),
                    ApiCall.remove_channel_member c.id u.id]
          out := [Msg.info ("Removing user '" ++ email ++ "' from team '" ++
                            teamname ++ "'")] } := by
  by_cases hs : pyTruthyOptNat (mm.remove_channel_member c.id u.id).status_code <;>
    simp [remove_user_from_channel, hu, hc, hs]

/-! The claims. -/

/-- C10: print_utils.debug_print prints "DEBUG: msg" to stdout whenever the
module-level DEBUG global is absent or truthy; since print_utils.py defines
no DEBUG global, it prints on every call (debug output defaults to on).
userutil.debug_print prints only when its module-level DEBUG is True, and
that global starts as False (debug output defaults to off). -/
theorem debug_print_default_behaviour (msg : String) :
    PrintUtils.debug_print PrintUtils.moduleDEBUG msg = ["DEBUG: " ++ msg]
  ∧ (∀ g : Option Bool, PrintUtils.debug_print g msg ≠ [] ↔ g.getD true = true)
  ∧ Userutil.debug_print Userutil.DEBUG msg = []
  ∧ (∀ b : Bool, Userutil.debug_print b msg ≠ [] ↔ b = true) := by
  refine ⟨rfl, ?_, rfl, ?_⟩
  · intro g
    match g with
    | none => simp [PrintUtils.debug_print]
    | some b => cases b <;> simp [PrintUtils.debug_print]
  · intro b
    cases b <;> simp [Userutil.debug_print]

/-- C9: parse_channel_name is idempotent, its output contains no spaces and
no uppercase basic-latin characters (every space is replaced by a dash and
the string is lowercased), and both channel actions look up the channel by
the normalized name. -/
theorem parse_channel_name_normalized (s email channel team : String)
    (mm : Driver) (u : Entity) :
    parse_channel_name (parse_channel_name s) = parse_channel_name s
  ∧ (∀ c ∈ (parse_channel_name s).data, c ≠ ' ' ∧ c.isUpper = false)
  ∧ (mm.get_user_by_email email = some u →
      ApiCall.get_channel_by_name_and_team_name team (parse_channel_name channel) ∈
        (add_user_to_channel mm email channel team).calls
    ∧ ApiCall.get_channel_by_name_and_team_name team (parse_channel_name channel) ∈
        (remove_user_from_channel mm email channel team).calls) := by
  refine ⟨?_, ?_, ?_⟩
  · simp only [parse_channel_name, List.map_map]
    congr 1
    apply List.map_congr_left
    intro a _
    simp only [Function.comp_apply]
    exact dash_step_idem a
  · intro c hc
    simp only [parse_channel_name, List.map_map, List.mem_map] at hc
    obtain ⟨a, _, rfl⟩ := hc
    simp only [Function.comp_apply]
    by_cases h : Char.toLower a = ' '
    · rw [if_pos h]
      exact ⟨by decide, by decide⟩
    · rw [if_neg h]
      exact ⟨h, toLower_isUpper a⟩
  · intro h
    constructor
    · unfold add_user_to_channel
      rw [h]
      simp only []
      cases hc : mm.get_channel_by_name_and_team_name team (parse_channel_name channel) with
      | none => simp
      | some ch =>
        by_cases hs : pyTruthyOptNat (mm.add_user ch.id { user_id := u.id }).status_code
          <;> simp [hs]
    · unfold remove_user_from_channel
      rw [h]
      simp only []
      cases hc : mm.get_channel_by_name_and_team_name team (parse_channel_name channel) with
      | none => simp
      | some ch =>
        by_cases hs : pyTruthyOptNat (mm.remove_channel_member ch.id u.id).status_code
          <;> simp [hs]

/-- C2 (amended): the three checks of validate_args apply in order, so only
the first failing one exits. It exits 1 iff a site argument (siteurl, port,
scheme, tokenfile) is missing or falsy; it exits 2 iff the site arguments
pass, some task flag is set and useremail is falsy; it exits 3 iff the two
earlier checks pass, a channel operation is requested and team is falsy;
otherwise it returns normally. -/
theorem validate_args_exit_codes (args : Args) :
    (validate_args args = some 1 ↔ site_args_ok args = false)
  ∧ (validate_args args = some 2 ↔
       site_args_ok args = true ∧ task_flag_set args = true
         ∧ pyTruthyStr args.useremail = false)
  ∧ (validate_args args = some 3 ↔
       site_args_ok args = true
         ∧ ¬(task_flag_set args = true ∧ pyTruthyStr args.useremail = false)
         ∧ channel_op_set args = true ∧ pyTruthyOptStr args.team = false)
  ∧ (validate_args args = none ↔
       site_args_ok args = true
         ∧ ¬(task_flag_set args = true ∧ pyTruthyStr args.useremail = false)
         ∧ ¬(channel_op_set args = true ∧ pyTruthyOptStr args.team = false)) := by
  have hc1 : (!(pyTruthyOptStr args.siteurl) || !(pyTruthyStr args.port)
      || !(pyTruthyStr args.scheme) || !args.tokenfile.isSome)
      = !(site_args_ok args) := by
    unfold site_args_ok
    cases pyTruthyOptStr args.siteurl <;> cases pyTruthyStr args.port <;>
      cases pyTruthyStr args.scheme <;> cases args.tokenfile.isSome <;> simp
  have hdup : (args.forcelogout
      || args.disableuser
      || pyTruthyOptStr args.newnickname
      || args.enableuser
      || pyTruthyOptStr args.newnickname
      || args.removenickname
      || pyTruthyOptStr args.teamadd
      || pyTruthyOptStr args.teamremove
      || pyTruthyOptStr args.channeladd
      || pyTruthyOptStr args.channelremove) = task_flag_set args := by
    unfold task_flag_set
    cases pyTruthyOptStr args.newnickname <;> simp
  have hc3 : (pyTruthyOptStr args.channeladd || pyTruthyOptStr args.channelremove)
      = channel_op_set args := rfl
  simp only [validate_args, hc1, hdup, hc3]
  cases hs : site_args_ok args <;>
    cases ht : task_flag_set args <;>
    cases he : pyTruthyStr args.useremail <;>
    cases hco : channel_op_set args <;>
    cases htm : pyTruthyOptStr args.team <;>
    simp

/-- C2 counterexample: argsMissingSite has a task flag set and a falsy
useremail, yet validate_args exits with code 1, not code 2: the site-check
fires first, so the claim's unconditional reading of the exit-2 rule fails. -/
theorem validate_args_code2_counterexample :
    task_flag_set argsMissingSite = true
  ∧ pyTruthyStr argsMissingSite.useremail = false
  ∧ validate_args argsMissingSite = some 1
  ∧ ¬ validate_args argsMissingSite = some 2 := by
  refine ⟨rfl, rfl, rfl, ?_⟩
  decide

theorem filter_guard {α : Type} (p : α → Bool) (a : α) (l : List α) :
    List.filter p (a :: l) = (if p a then [a] else []) ++ List.filter p l := by
  rw [List.filter_cons]
  cases p a <;> simp

/-- C4: main executes the requested actions as a fixed list of sequential
calls in the order forcelogout, disableuser, enableuser, newnickname,
removenickname, teamadd, teamremove, channeladd, channelremove; each
requested action is attempted exactly once and each unrequested action is
not attempted, whatever the driver returns. -/
theorem main_actions_fixed_order (mm : Driver) (args : Args) :
    (main_actions mm args).map Prod.fst = actionOrder.filter (requested args)
  ∧ ∀ a : ActionName,
      ((main_actions mm args).map Prod.fst).count a
        = if requested args a then 1 else 0 := by
  have hmap : (main_actions mm args).map Prod.fst
      = actionOrder.filter (requested args) := by
    simp only [main_actions, actionOrder, filter_guard, List.filter_nil,
      List.append_nil, List.map_append,
      apply_ite (List.map (@Prod.fst ActionName ActionResult)),
      List.map_cons, List.map_nil, List.append_assoc, requested]
  refine ⟨hmap, ?_⟩
  intro a
  rw [hmap]
  by_cases h : requested args a = true
  · rw [if_pos h]
    rw [List.count_filter h]
    cases a <;> decide
  · rw [if_neg h]
    rw [List.count_eq_zero]
    intro hmem
    rw [List.mem_filter] at hmem
    exact h hmem.2

/-- C1: in every action function a failed entity lookup (user by email,
team by name, channel by name) makes the function print a warning/error and
return False without issuing the mutating API call; a non-success response
to the mutating call makes it print a warning/error and return False; and
the list of actions main attempts is determined by the arguments alone
(actionOrder filtered by the requested guards), so one action's failure
never prevents a later requested action from being attempted. -/
theorem actions_fail_safely (mm : Driver) (args : Args)
    (email nick team channel : String) :
    (mm.get_user_by_email email = none →
        failsWithoutMutation (force_user_logout mm email)
      ∧ (∀ revert, failsWithoutMutation (disable_user mm email revert))
      ∧ failsWithoutMutation (new_nickname mm email nick)
      ∧ failsWithoutMutation (remove_nickname mm email)
      ∧ failsWithoutMutation (add_user_to_team mm email team)
      ∧ failsWithoutMutation (remove_user_from_team mm email team)
      ∧ failsWithoutMutation (add_user_to_channel mm email channel team)
      ∧ failsWithoutMutation (remove_user_from_channel mm email channel team))
  ∧ (∀ u, mm.get_user_by_email email = some u →
      mm.get_team_by_name team = none →
        failsWithoutMutation (add_user_to_team mm email team)
      ∧ failsWithoutMutation (remove_user_from_team mm email team))
  ∧ (∀ u, mm.get_user_by_email email = some u →
      mm.get_channel_by_name_and_team_name team (parse_channel_name channel) = none →
        failsWithoutMutation (add_user_to_channel mm email channel team)
      ∧ failsWithoutMutation (remove_user_from_channel mm email channel team))
  ∧ (∀ u, mm.get_user_by_email email = some u →
        (¬ (mm.revoke_all_user_sessions u.id).status = "OK" →
           failsWithWarning (force_user_logout mm email))
      ∧ (∀ revert,
           ¬ (mm.update_user_active_status u.id { active := revert }).status = "OK" →
           failsWithWarning (disable_user mm email revert))
      ∧ (¬ (mm.patch_user u.id { nickname := nick }).nickname = nick →
           failsWithWarning (new_nickname mm email nick))
      ∧ (¬ (mm.patch_user u.id { nickname := "" }).nickname = "" →
           failsWithWarning (remove_nickname mm email))
      ∧ (∀ t, mm.get_team_by_name team = some t →
           pyTruthyStr (mm.add_user_to_team t.id
             { team_id := t.id, user_id := u.id }).team_id = false →
           failsWithWarning (add_user_to_team mm email team))
      ∧ (∀ t, mm.get_team_by_name team = some t →
           pyTruthyStr (mm.remove_user_from_team t.id u.id).status = false →
           failsWithWarning (remove_user_from_team mm email team))
      ∧ (∀ c, mm.get_channel_by_name_and_team_name team
                (parse_channel_name channel) = some c →
           pyTruthyOptNat (mm.add_user c.id { user_id := u.id }).status_code = true →
           failsWithWarning (add_user_to_channel mm email channel team))
      ∧ (∀ c, mm.get_channel_by_name_and_team_name team
                (parse_channel_name channel) = some c →
           pyTruthyOptNat (mm.remove_channel_member c.id u.id).status_code = true →
           failsWithWarning (remove_user_from_channel mm email channel team)))
  ∧ (main_actions mm args).map Prod.fst = actionOrder.filter (requested args) := by
  refine ⟨?_, ?_, ?_, ?_, (main_actions_fixed_order mm args).1⟩
  · intro h
    refine ⟨?_, ?_, ?_, ?_, ?_, ?_, ?_, ?_⟩
    · rw [force_user_logout_user_missing mm email h]
      simp [failsWithoutMutation, ApiCall.mutating, Msg.isWarnOrError]
    · intro revert
      rw [disable_user_user_missing mm email revert h]
      cases revert <;>
        simp [failsWithoutMutation, ApiCall.mutating, Msg.isWarnOrError]
    · rw [new_nickname_user_missing mm email nick h]
      simp [failsWithoutMutation, ApiCall.mutating, Msg.isWarnOrError]
    · rw [remove_nickname_user_missing mm email h]
      simp [failsWithoutMutation, ApiCall.mutating, Msg.isWarnOrError]
    · rw [add_user_to_team_user_missing mm email team h]
      simp [failsWithoutMutation, ApiCall.mutating, Msg.isWarnOrError]
    · rw [remove_user_from_team_user_missing mm email team h]
      simp [failsWithoutMutation, ApiCall.mutating, Msg.isWarnOrError]
    · rw [add_user_to_channel_user_missing mm email channel team h]
      simp [failsWithoutMutation, ApiCall.mutating, Msg.isWarnOrError]
    · rw [remove_user_from_channel_user_missing mm email channel team h]
      simp [failsWithoutMutation, ApiCall.mutating, Msg.isWarnOrError]
  · intro u hu ht
    constructor
    · rw [add_user_to_team_team_missing mm email team u hu ht]
      simp [failsWithoutMutation, ApiCall.mutating, Msg.isWarnOrError]
    · rw [remove_user_from_team_team_missing mm email team u hu ht]
      simp [failsWithoutMutation, ApiCall.mutating, Msg.isWarnOrError]
  · intro u hu hc
    constructor
    · rw [add_user_to_channel_channel_missing mm email channel team u hu hc]
      simp [failsWithoutMutation, ApiCall.mutating, Msg.isWarnOrError]
    · rw [remove_user_from_channel_channel_missing mm email channel team u hu hc]
      simp [failsWithoutMutation, ApiCall.mutating, Msg.isWarnOrError]
  · intro u hu
    refine ⟨?_, ?_, ?_, ?_, ?_, ?_, ?_, ?_⟩
    · intro hs
      rw [force_user_logout_found mm email u hu, if_neg hs]
      simp [failsWithWarning, Msg.isWarnOrError]
    · intro revert hs
      rw [disable_user_found mm email revert u hu, if_neg hs]
      cases revert <;> simp [failsWithWarning, Msg.isWarnOrError]
    · intro hs
      rw [new_nickname_found mm email nick u hu, if_neg hs]
      simp [failsWithWarning, Msg.isWarnOrError]
    · intro hs
      rw [remove_nickname_found mm email u hu, if_neg hs]
      simp [failsWithWarning, Msg.isWarnOrError]
    · intro t ht hs
      rw [add_user_to_team_found mm email team u t hu ht, if_neg (by simp [hs])]
      simp [failsWithWarning, Msg.isWarnOrError]
    · intro t ht hs
      rw [remove_user_from_team_found mm email team u t hu ht, if_neg (by simp [hs])]
      simp [failsWithWarning, Msg.isWarnOrError]
    · intro c hc hs
      rw [add_user_to_channel_found mm email channel team u c hu hc, if_pos (by simp [hs])]
      simp [failsWithWarning, Msg.isWarnOrError]
    · intro c hc hs
      rw [remove_user_from_channel_found mm email channel team u c hu hc,
        if_pos (by simp [hs])]
      simp [failsWithWarning, Msg.isWarnOrError]

/-- C3 (amended): each action function decides success by its own check on
the response to the mutating call, and a failing action prints a failure
message and returns False. The check is the status field equalling OK for
force_user_logout and disable_user, the patched user object's nickname
field matching the request for new_nickname and remove_nickname, a truthy
team_id field for add_user_to_team, a truthy status field for
remove_user_from_team, and the absence of a status_code entry for
add_user_to_channel and remove_user_from_channel. -/
theorem action_success_criteria (mm : Driver) (email nick team channel : String) :
    ∀ u, mm.get_user_by_email email = some u →
      succeedsIff (force_user_logout mm email)
        ((mm.revoke_all_user_sessions u.id).status = "OK")
    ∧ (∀ revert, succeedsIff (disable_user mm email revert)
        ((mm.update_user_active_status u.id { active := revert }).status = "OK"))
    ∧ succeedsIff (new_nickname mm email nick)
        ((mm.patch_user u.id { nickname := nick }).nickname = nick)
    ∧ succeedsIff (remove_nickname mm email)
        ((mm.patch_user u.id { nickname := "" }).nickname = "")
    ∧ (∀ t, mm.get_team_by_name team = some t →
        succeedsIff (add_user_to_team mm email team)
          (pyTruthyStr (mm.add_user_to_team t.id
            { team_id := t.id, user_id := u.id }).team_id = true))
    ∧ (∀ t, mm.get_team_by_name team = some t →
        succeedsIff (remove_user_from_team mm email team)
          (pyTruthyStr (mm.remove_user_from_team t.id u.id).status = true))
    ∧ (∀ c, mm.get_channel_by_name_and_team_name team
              (parse_channel_name channel) = some c →
        succeedsIff (add_user_to_channel mm email channel team)
          (pyTruthyOptNat (mm.add_user c.id { user_id := u.id }).status_code = false))
    ∧ (∀ c, mm.get_channel_by_name_and_team_name team
              (parse_channel_name channel) = some c →
        succeedsIff (remove_user_from_channel mm email channel team)
          (pyTruthyOptNat (mm.remove_channel_member c.id u.id).status_code = false)) := by
  intro u hu
  refine ⟨?_, ?_, ?_, ?_, ?_, ?_, ?_, ?_⟩
  · rw [force_user_logout_found mm email u hu]
    by_cases hs : (mm.revoke_all_user_sessions u.id).status = "OK" <;>
      simp [succeedsIff, hs, Msg.isWarnOrError]
  · intro revert
    rw [disable_user_found mm email revert u hu]
    by_cases hs : (mm.update_user_active_status u.id { active := revert }).status = "OK" <;>
      cases revert <;> simp [succeedsIff, hs, Msg.isWarnOrError]
  · rw [new_nickname_found mm email nick u hu]
    by_cases hs : (mm.patch_user u.id { nickname := nick }).nickname = nick <;>
      simp [succeedsIff, hs, Msg.isWarnOrError]
  · rw [remove_nickname_found mm email u hu]
    by_cases hs : (mm.patch_user u.id { nickname := "" }).nickname = "" <;>
      simp [succeedsIff, hs, Msg.isWarnOrError]
  · intro t ht
    rw [add_user_to_team_found mm email team u t hu ht]
    by_cases hs : pyTruthyStr (mm.add_user_to_team t.id
        { team_id := t.id, user_id := u.id }).team_id <;>
      simp [succeedsIff, hs, Msg.isWarnOrError]
  · intro t ht
    rw [remove_user_from_team_found mm email team u t hu ht]
    by_cases hs : pyTruthyStr (mm.remove_user_from_team t.id u.id).status <;>
      simp [succeedsIff, hs, Msg.isWarnOrError]
  · intro c hc
    rw [add_user_to_channel_found mm email channel team u c hu hc]
    by_cases hs : pyTruthyOptNat (mm.add_user c.id { user_id := u.id }).status_code <;>
      simp [succeedsIff, hs, Msg.isWarnOrError]
  · intro c hc
    rw [remove_user_from_channel_found mm email channel team u c hu hc]
    by_cases hs : pyTruthyOptNat (mm.remove_channel_member c.id u.id).status_code <;>
      simp [succeedsIff, hs, Msg.isWarnOrError]

/-- C3 counterexample: new_nickname does not decide success by a status
field. The drivers mmOk and mmNickBad agree on every endpoint except
patch_user, whose responses (which carry no status field at all) differ
only in their nickname field, yet new_nickname succeeds on one and fails on
the other: its check compares the response's nickname field with the
requested nickname. -/
theorem new_nickname_ignores_status :
    (new_nickname mmOk "u@x.y" "bob").ok = true
  ∧ (new_nickname mmNickBad "u@x.y" "bob").ok = false
  ∧ mmNickBad.get_user_by_email = mmOk.get_user_by_email
  ∧ mmNickBad.get_team_by_name = mmOk.get_team_by_name
  ∧ mmNickBad.get_channel_by_name_and_team_name = mmOk.get_channel_by_name_and_team_name
  ∧ mmNickBad.revoke_all_user_sessions = mmOk.revoke_all_user_sessions
  ∧ mmNickBad.update_user_active_status = mmOk.update_user_active_status
  ∧ mmNickBad.add_user_to_team = mmOk.add_user_to_team
  ∧ mmNickBad.remove_user_from_team = mmOk.remove_user_from_team
  ∧ mmNickBad.add_user = mmOk.add_user
  ∧ mmNickBad.remove_channel_member = mmOk.remove_channel_member
  ∧ (mmOk.patch_user "U1" { nickname := "bob" }).nickname = "bob"
  ∧ (mmNickBad.patch_user "U1" { nickname := "bob" }).nickname = "eve" := by
  exact ⟨rfl, rfl, rfl, rfl, rfl, rfl, rfl, rfl, rfl, rfl, rfl, rfl, rfl⟩

/-- C5: disable_user resolves the user from the given email and sends the
options dict whose active entry is False when revert is False and True when
revert is True (active := revert) to update_user_active_status, and returns
True exactly when the response's status field equals OK. -/
theorem disable_user_active_payload (mm : Driver) (email : String)
    (revert : Bool) (u : Entity) (h : mm.get_user_by_email email = some u) :
    (disable_user mm email revert).calls =
      [ApiCall.get_user_by_email email,
       ApiCall.update_user_active_status u.id { active := revert }]
  ∧ ((disable_user mm email revert).ok = true ↔
      (mm.update_user_active_status u.id { active := revert }).status = "OK") := by
  rw [disable_user_found mm email revert u h]
  by_cases hs : (mm.update_user_active_status u.id { active := revert }).status = "OK" <;>
    simp [hs]

/-- Witness for C5: on the concrete driver mmOk, disabling u@x.y issues
exactly the lookup and the update with active := false, and succeeds. -/
theorem disable_user_active_payload_witness :
    (disable_user mmOk "u@x.y" false).calls =
      [ApiCall.get_user_by_email "u@x.y",
       ApiCall.update_user_active_status "U1" { active := false }]
  ∧ ((disable_user mmOk "u@x.y" false).ok = true ↔
      (mmOk.update_user_active_status "U1" { active := false }).status = "OK") := by
  exact disable_user_active_payload mmOk "u@x.y" false demoUser rfl

theorem parse_args_none_of_no_useremail (defaults : List (String × String))
    (fs : String → Option TokenFile) (cmd : CmdLine)
    (h : cmd.useremail = none) : parse_args defaults fs cmd = none := by
  simp [parse_args, h]

theorem parse_args_useremail_eq (defaults : List (String × String))
    (fs : String → Option TokenFile) (cmd : CmdLine) (ns : Args)
    (hp : parse_args defaults fs cmd = some ns) :
    cmd.useremail = some ns.useremail := by
  cases hemail : cmd.useremail with
  | none =>
    rw [parse_args_none_of_no_useremail defaults fs cmd hemail] at hp
    cases hp
  | some email =>
    cases hsch : schemeOk cmd.scheme with
    | false =>
      simp only [parse_args, hemail, hsch, Bool.not_false, if_true] at hp
      exact Option.noConfusion hp
    | true =>
      cases htk : cmd.tokenfile <|> dictGet defaults "tokenfile" with
      | none =>
        simp only [parse_args, hemail, hsch, htk, Bool.not_true,
          Bool.false_eq_true, if_false, Option.some.injEq] at hp
        subst hp
        rfl
      | some p =>
        cases hfs : fs p with
        | none =>
          simp only [parse_args, hemail, hsch, htk, hfs, Bool.not_true,
            Bool.false_eq_true, if_false] at hp
          exact Option.noConfusion hp
        | some tok =>
          simp only [parse_args, hemail, hsch, htk, hfs, Bool.not_true,
            Bool.false_eq_true, if_false, Option.some.injEq] at hp
          subst hp
          rfl

theorem validate_args_some2_email (ns : Args)
    (h : validate_args ns = some 2) : pyTruthyStr ns.useremail = false := by
  unfold validate_args at h
  split_ifs at h with h1 h2 h3
  · cases h
  · rw [Bool.and_eq_true, Bool.not_eq_true'] at h2
    exact h2.2
  · cases h

/-- C6: load_site_config returns the dictionary of the entries in the INI
file's Site section, and the parser built over that dictionary takes its
defaults for siteurl, port, scheme and tokenfile from it: when the command
line does not override them, the parsed namespace carries the Site
section's siteurl entry (None when absent), its port and scheme entries
falling back to 443 and https when absent, and the open handle of the file
named by its tokenfile entry. -/
theorem load_site_config_supplies_defaults (ini : IniFile)
    (site : List (String × String)) (fs : String → Option TokenFile)
    (cmd : CmdLine) (ns : Args)
    (_hsite : load_site_config ini = some site)
    (hs1 : cmd.siteurl = none) (hs2 : cmd.port = none)
    (hs3 : cmd.scheme = none) (hs4 : cmd.tokenfile = none)
    (hp : parse_args site fs cmd = some ns) :
    ns.siteurl = dictGet site "siteurl"
  ∧ ns.port = (dictGet site "port").getD DEFAULT_PORT
  ∧ ns.scheme = (dictGet site "scheme").getD DEFAULT_SCHEME
  ∧ (dictGet site "tokenfile" = none → ns.tokenfile = none)
  ∧ (∀ p, dictGet site "tokenfile" = some p → ns.tokenfile = fs p) := by
  cases hemail : cmd.useremail with
  | none =>
    rw [parse_args_none_of_no_useremail site fs cmd hemail] at hp
    cases hp
  | some email =>
    have hsch : schemeOk cmd.scheme = true := by rw [hs3]; rfl
    cases htk : dictGet site "tokenfile" with
    | none =>
      simp only [parse_args, hemail, hsch, hs4, htk, Option.none_orElse,
        Bool.not_true, Bool.false_eq_true, if_false, Option.some.injEq] at hp
      subst hp
      refine ⟨?_, ?_, ?_, ?_, ?_⟩
      · simp [mkNamespace, hs1]
      · simp [mkNamespace, hs2]
      · simp [mkNamespace, hs3]
      · intro _
        rfl
      · intro p hps
        exact Option.noConfusion hps
    | some p =>
      cases hfs : fs p with
      | none =>
        simp only [parse_args, hemail, hsch, hs4, htk, hfs, Option.none_orElse,
          Bool.not_true, Bool.false_eq_true, if_false] at hp
        exact Option.noConfusion hp
      | some tok =>
        simp only [parse_args, hemail, hsch, hs4, htk, hfs, Option.none_orElse,
          Bool.not_true, Bool.false_eq_true, if_false, Option.some.injEq] at hp
        subst hp
        refine ⟨?_, ?_, ?_, ?_, ?_⟩
        · simp [mkNamespace, hs1]
        · simp [mkNamespace, hs2]
        · simp [mkNamespace, hs3]
        · intro hn
          exact Option.noConfusion hn
        · intro q hq
          obtain rfl := Option.some.inj hq
          rw [hfs]
          rfl

/-- Witness for C6: parsing cmdDemo (which supplies only --useremail) over
iniDemo's Site section yields nsDemo, whose site defaults are exactly the
Site entries, with the tokenfile path opened through fsDemo. -/
theorem load_site_config_supplies_defaults_witness :
    nsDemo.siteurl = some "mm.example.com"
  ∧ nsDemo.port = "8065"
  ∧ nsDemo.scheme = "http"
  ∧ nsDemo.tokenfile = some { token := "tok" } := by
  have h := load_site_config_supplies_defaults iniDemo
    [("siteurl", "mm.example.com"), ("port", "8065"),
     ("scheme", "http"), ("tokenfile", "tok.txt")]
    fsDemo cmdDemo nsDemo rfl rfl rfl rfl rfl rfl
  exact ⟨h.1.trans rfl, h.2.1.trans rfl, h.2.2.1.trans rfl,
         (h.2.2.2.2 "tok.txt" rfl).trans rfl⟩

/-- C7: the --useremail option is declared required=True, so parsing any
command line that does not supply it fails (argparse exits with a usage
error before main can call any action function), and every successfully
parsed namespace carries exactly the supplied email. -/
theorem useremail_required (defaults : List (String × String))
    (fs : String → Option TokenFile) (cmd : CmdLine) :
    (cmd.useremail = none → parse_args defaults fs cmd = none)
  ∧ (∀ ns, parse_args defaults fs cmd = some ns →
       cmd.useremail = some ns.useremail) := by
  exact ⟨parse_args_none_of_no_useremail defaults fs cmd,
         fun ns => parse_args_useremail_eq defaults fs cmd ns⟩

/-- Witness for C7: a command line with no --useremail fails to parse. -/
theorem useremail_required_witness :
    parse_args [] fsDemo {} = none :=
  (useremail_required [] fsDemo {}).1 rfl

/-- C8: every namespace produced by a successful parse has the supplied
useremail, so validate_args can exit with code 2 only when the command line
passed an explicitly empty --useremail value, and never when the supplied
email is non-empty. -/
theorem exit_code2_needs_explicit_empty_email (defaults : List (String × String))
    (fs : String → Option TokenFile) (cmd : CmdLine) (ns : Args) :
    (parse_args defaults fs cmd = some ns → validate_args ns = some 2 →
       ns.useremail = "" ∧ cmd.useremail = some "")
  ∧ (¬ ns.useremail = "" → ¬ validate_args ns = some 2) := by
  have hempty : validate_args ns = some 2 → ns.useremail = "" := by
    intro h2
    have he := validate_args_some2_email ns h2
    unfold pyTruthyStr at he
    rw [Bool.not_eq_false'] at he
    exact (String.isEmpty_iff ns.useremail).mp he
  constructor
  · intro hp h2
    have he := hempty h2
    refine ⟨he, ?_⟩
    rw [parse_args_useremail_eq defaults fs cmd ns hp, he]
  · intro hne h2
    exact hne (hempty h2)

/-- Witness for C8: cmdEmptyEmail passes an explicitly empty --useremail;
it parses to nsEmptyEmail, on which validate_args exits with code 2. -/
theorem exit_code2_needs_explicit_empty_email_witness :
    nsEmptyEmail.useremail = "" ∧ cmdEmptyEmail.useremail = some "" :=
  (exit_code2_needs_explicit_empty_email [] fsDemo cmdEmptyEmail nsEmptyEmail).1 rfl rfl

/-- Witness for C1: with no user found, force_user_logout fails without a
mutating call; with the user found but no team, add_user_to_team fails
without a mutating call; with a failing revoke response, force_user_logout
fails with a warning. -/
theorem actions_fail_safely_witness :
    failsWithoutMutation (force_user_logout mmNoUser "u@x.y")
  ∧ failsWithoutMutation (add_user_to_team mmNoTeam "u@x.y" "town")
  ∧ failsWithWarning (force_user_logout mmFail "u@x.y") := by
  refine ⟨?_, ?_, ?_⟩
  · exact ((actions_fail_safely mmNoUser argsMissingSite "u@x.y" "n" "t" "c").1 rfl).1
  · exact ((actions_fail_safely mmNoTeam argsMissingSite "u@x.y" "n" "town" "c").2.1
      demoUser rfl rfl).1
  · exact ((actions_fail_safely mmFail argsMissingSite "u@x.y" "n" "t" "c").2.2.2.1
      demoUser rfl).1 (by decide)

/-- Witness for C3's amended statement: on mmOk, force_user_logout succeeds
and its success is equivalent to the OK status of the revoke response. -/
theorem action_success_criteria_witness :
    succeedsIff (force_user_logout mmOk "u@x.y")
      ((mmOk.revoke_all_user_sessions "U1").status = "OK") :=
  (action_success_criteria mmOk "u@x.y" "bob" "town" "general" demoUser rfl).1

/-- Witness for C9: the channel actions on mmOk look up the channel under
the normalized name town-square. -/
theorem parse_channel_name_normalized_witness :
    ApiCall.get_channel_by_name_and_team_name "myteam" (parse_channel_name "Town Square") ∈
      (add_user_to_channel mmOk "u@x.y" "Town Square" "myteam").calls
  ∧ ApiCall.get_channel_by_name_and_team_name "myteam" (parse_channel_name "Town Square") ∈
      (remove_user_from_channel mmOk "u@x.y" "Town Square" "myteam").calls :=
  (parse_channel_name_normalized "Town Square" "u@x.y" "Town Square" "myteam"
    mmOk demoUser).2.2 rfl

end MMUserUtils
